import Mathlib

/-!
Verification of the iFood delivery-assignment optimizer
(`projeto_ifood`: `ifood_optimizer.py`, `advanced_features.py`).

The embedding models couriers (`Entregador`) and orders (`Pedido`) as
records over exact rationals (Python floats are modelled by ℚ), and the
PuLP model built by `criar_modelo` as a predicate over a 0/1 assignment
`x : Fin M → Fin N → Bool` together with auxiliary delivery times
`T : Fin N → ℚ`.  `lpSum` over `range(n)` is embedded as a list sum over
`List.finRange n`.
-/

namespace IFood

/-- Courier record, as cleaned by `preprocessar_dados`: columns `ID`,
`Velocidade Média (km/h)`, `Custo Operacional (R$/h)`, `Capacidade Máxima`. -/
structure Entregador where
  id : ℕ
  velocidade : ℚ
  custoOperacional : ℚ
  capacidade : ℕ
deriving DecidableEq

/-- Order record, as cleaned by `preprocessar_dados`: columns `pedido_id`,
`nome_restaurante`, `cep_cliente`, `prioridade`, `valor_pedido`,
`tempo_preparo_min`, `tempo_deslocamento_min`, `distancia_km`. -/
structure Pedido where
  pedido_id : String
  nome_restaurante : String
  cep_cliente : ℕ
  prioridade : ℕ
  valor_pedido : ℚ
  tempo_preparo_min : ℚ
  tempo_deslocamento_min : ℚ
  distancia_km : ℚ
deriving DecidableEq

/-- The courier-to-restaurant travel-time estimate used in model
construction (`ifood_optimizer.py` lines 193-203): the order's
`distancia_km` field is the estimated distance of the courier-to-restaurant
leg, divided by the courier's speed, times 60 to give minutes.  The source
performs the division unconditionally, with no guard on the speed. -/
def calcular_tempo_deslocamento (e : Entregador) (p : Pedido) : ℚ :=
  (p.distancia_km / e.velocidade) * 60

/-- The geocoded courier-to-restaurant travel time
(`ifood_optimizer.py` lines 236-265), used only by the commented-out R2
block.  Geocoding is external: the embedding takes whether both coordinate
lookups succeeded and the resulting Haversine distance as parameters.  The
guard covers only a speed exactly equal to zero. -/
def calcular_tempo_entregador_restaurante (velocidade_kmh : ℚ)
    (coordsEncontradas : Bool) (distancia_km : ℚ) : ℚ :=
  if coordsEncontradas = false then 9999
  else if velocidade_kmh = 0 then 9999
  else (distancia_km / velocidade_kmh) * 60

/-- Modelled from the spec: the Cost Estimator contract of section 4.1
says a zero or negative speed must be treated as a courier-validity error
rather than a division being performed; the error channel (`none`) is what
the source lacks. -/
def tempoDeslocamentoSpec (e : Entregador) (p : Pedido) : Option ℚ :=
  if e.velocidade ≤ 0 then none
  else some ((p.distancia_km / e.velocidade) * 60)

/-- Per-pair cost coefficient of the time-definition constraint R2
(`ifood_optimizer.py` lines 329-338): travel estimate plus the order's
preparation time plus its restaurant-to-customer leg. -/
def custoPar (e : Entregador) (p : Pedido) : ℚ :=
  calcular_tempo_deslocamento e p + p.tempo_preparo_min + p.tempo_deslocamento_min

/-- Indicator of a binary decision variable value. -/
def indicador (b : Bool) : ℕ := if b then 1 else 0

/-- Constraint R1 (`Atribuicao_Unica_Pedido_j`): each order's assignment
variables sum to exactly 1. -/
def atribuicaoUnica (M N : ℕ) (x : Fin M → Fin N → Bool) : Prop :=
  ∀ j : Fin N, ((List.finRange M).map fun i => indicador (x i j)).sum = 1

/-- Constraint R3 (`Capacidade_Entregador_i`): each courier's assignment
variables sum to at most its `Capacidade Máxima`. -/
def capacidadeRespeitada (ents : List Entregador) (N : ℕ)
    (x : Fin ents.length → Fin N → Bool) : Prop :=
  ∀ i : Fin ents.length,
    ((List.finRange N).map fun j => indicador (x i j)).sum ≤ (ents.get i).capacidade

/-- Constraint R2 (`Calculo_Tempo_Pedido_j`): each order's time variable
equals the sum over couriers of the assignment indicator times the
per-pair cost. -/
def tempoDefinido (ents : List Entregador) (peds : List Pedido)
    (x : Fin ents.length → Fin peds.length → Bool)
    (T : Fin peds.length → ℚ) : Prop :=
  ∀ j : Fin peds.length,
    T j = ((List.finRange ents.length).map fun i =>
      if x i j then custoPar (ents.get i) (peds.get j) else 0).sum

/-- The priority-weighted objective installed at the end of `criar_modelo`
(lines 369-376): sum over orders of time times the priority ordinal. -/
def objetivoPonderado (peds : List Pedido) (T : Fin peds.length → ℚ) : ℚ :=
  ((List.finRange peds.length).map fun j =>
    T j * ((peds.get j).prioridade : ℚ)).sum

/-- An assembled PuLP model over M couriers and N orders: its objective
function over the time variables, and its constraint set over assignment
and time variables. -/
structure Modelo (M N : ℕ) where
  objetivo : (Fin N → ℚ) → ℚ
  viavel : (Fin M → Fin N → Bool) → (Fin N → ℚ) → Prop

/-- Embedding of `criar_modelo` (`ifood_optimizer.py` lines 293-381).  The
model is first given the unweighted objective `lpSum T[j]` (line 320), the
constraints R1, R2, R3 are added, and then the objective is overwritten by
the priority-weighted sum (line 376). -/
def criar_modelo (ents : List Entregador) (peds : List Pedido) :
    Modelo ents.length peds.length :=
  let m0 : Modelo ents.length peds.length :=
    { objetivo := fun T => ((List.finRange peds.length).map fun j => T j).sum
      viavel := fun x T =>
        atribuicaoUnica ents.length peds.length x ∧
        tempoDefinido ents peds x T ∧
        capacidadeRespeitada ents peds.length x }
  { m0 with objetivo := fun T => objetivoPonderado peds T }

/-- Solver status as returned by PuLP and branched on by
`resolver_modelo`; `indefinido` stands for every status other than
Optimal, Infeasible or Unbounded (Not Solved, Undefined, timed out). -/
inductive StatusLp where
  | otimo
  | inviavel
  | ilimitado
  | indefinido
deriving DecidableEq

/-- One entry of the allocation list built by `extrair_resultado`
(lines 428-437). -/
structure Alocacao where
  entregador_id : ℕ
  entregador_idx : ℕ
  pedido_id : String
  pedido_idx : ℕ
  restaurante : String
  prioridade : ℕ
  valor_pedido : ℚ
  tempo_entrega : ℚ
deriving DecidableEq

/-- The Solution record assembled by `extrair_resultado` (lines 445-453). -/
structure Resultado where
  valor_objetivo : ℚ
  tempo_total : ℚ
  tempo_medio : ℚ
  alocacoes : List Alocacao
  num_entregadores_usados : ℕ
  num_pedidos_alocados : ℕ
  num_pedidos_total : ℕ
deriving DecidableEq

/-- One allocation entry as built by `extrair_resultado` for courier i and
order j. -/
def mkAlocacao (ents : List Entregador) (peds : List Pedido)
    (T : Fin peds.length → ℚ) (i : Fin ents.length) (j : Fin peds.length) :
    Alocacao :=
  { entregador_id := (ents.get i).id
    entregador_idx := i.val
    pedido_id := (peds.get j).pedido_id
    pedido_idx := j.val
    restaurante := (peds.get j).nome_restaurante
    prioridade := (peds.get j).prioridade
    valor_pedido := (peds.get j).valor_pedido
    tempo_entrega := T j }

/-- The nested loop of `extrair_resultado` (lines 422-437): for each
courier i, for each order j, append an entry when `x[i,j] == 1`. -/
def alocacoesDe (ents : List Entregador) (peds : List Pedido)
    (x : Fin ents.length → Fin peds.length → Bool)
    (T : Fin peds.length → ℚ) : List Alocacao :=
  (List.finRange ents.length).flatMap fun i =>
    ((List.finRange peds.length).filter fun j => x i j).map
      (mkAlocacao ents peds T i)

/-- Embedding of `extrair_resultado` (lines 410-463).  When the order set
is empty the source prints an error and returns without installing a
result, modelled as `none`; otherwise it assembles the Solution record. -/
def extrair_resultado (ents : List Entregador) (peds : List Pedido)
    (x : Fin ents.length → Fin peds.length → Bool)
    (T : Fin peds.length → ℚ) : Option Resultado :=
  if peds.length = 0 then none
  else
    let alocacoes := alocacoesDe ents peds x T
    let tempo_total := ((List.finRange peds.length).map fun j => T j).sum
    some
      { valor_objetivo := objetivoPonderado peds T
        tempo_total := tempo_total
        tempo_medio := tempo_total / (peds.length : ℚ)
        alocacoes := alocacoes
        num_entregadores_usados := ((alocacoes.map (·.entregador_idx)).dedup).length
        num_pedidos_alocados := alocacoes.length
        num_pedidos_total := peds.length }

/-- Embedding of `resolver_modelo` (lines 383-408).  The solver backend's
outcome is a status together with the variable values it ended with; the
source extracts a result only on Optimal, and on every other status prints
a message and returns `False` with no result installed. -/
def resolver_modelo (ents : List Entregador) (peds : List Pedido)
    (st : StatusLp) (x : Fin ents.length → Fin peds.length → Bool)
    (T : Fin peds.length → ℚ) : Bool × Option Resultado :=
  match st with
  | .otimo => (true, extrair_resultado ents peds x T)
  | .inviavel => (false, none)
  | .ilimitado => (false, none)
  | .indefinido => (false, none)

/-- One entry of the allocation list built by the deadline-constrained
variant `otimizacao_com_restricoes_tempo` (`advanced_features.py`
lines 254-263). -/
structure AlocacaoRestrita where
  entregador_id : ℕ
  pedido_id : String
  prioridade : ℕ
  tempo_entrega : ℚ
deriving DecidableEq

/-- The result record of the deadline-constrained variant
(`advanced_features.py` lines 265-270). -/
structure ResultadoRestrito where
  valor_objetivo : ℚ
  alocacoes : List AlocacaoRestrita
  tempo_total : ℚ
  restricoes_atendidas : Bool
deriving DecidableEq

/-- The deadline constraints added by `otimizacao_com_restricoes_tempo`
(lines 238-244): for each order, priority 3 gets `T[j] ≤ tempo_max_expresso`,
priority 2 gets `T[j] ≤ tempo_max_prioritario`, and no constraint is added
otherwise. -/
def restricoesTempoPrioridade (peds : List Pedido) (tmaxExpresso tmaxPrioritario : ℚ)
    (T : Fin peds.length → ℚ) : Prop :=
  ∀ j : Fin peds.length,
    if (peds.get j).prioridade = 3 then T j ≤ tmaxExpresso
    else if (peds.get j).prioridade = 2 then T j ≤ tmaxPrioritario
    else True

/-- The full constraint set of the deadline-constrained model
(lines 219-244): the base constraints R1, R3, R2 plus the per-priority
deadline constraints. -/
def modeloRestritoViavel (ents : List Entregador) (peds : List Pedido)
    (tmaxExpresso tmaxPrioritario : ℚ)
    (x : Fin ents.length → Fin peds.length → Bool)
    (T : Fin peds.length → ℚ) : Prop :=
  atribuicaoUnica ents.length peds.length x ∧
  capacidadeRespeitada ents peds.length x ∧
  tempoDefinido ents peds x T ∧
  restricoesTempoPrioridade peds tmaxExpresso tmaxPrioritario T

/-- The allocation list of the deadline-constrained variant, built by the
same nested loop shape as the base extractor. -/
def alocacoesRestritasDe (ents : List Entregador) (peds : List Pedido)
    (x : Fin ents.length → Fin peds.length → Bool)
    (T : Fin peds.length → ℚ) : List AlocacaoRestrita :=
  (List.finRange ents.length).flatMap fun i =>
    ((List.finRange peds.length).filter fun j => x i j).map fun j =>
      { entregador_id := (ents.get i).id
        pedido_id := (peds.get j).pedido_id
        prioridade := (peds.get j).prioridade
        tempo_entrega := T j }

/-- Embedding of the tail of `otimizacao_com_restricoes_tempo`
(lines 246-277): on Optimal status the variant extracts its result record;
on any other status it prints an infeasibility message and returns `None`,
modelled as `none`. -/
def otimizacao_com_restricoes_tempo (ents : List Entregador) (peds : List Pedido)
    (tmaxExpresso tmaxPrioritario : ℚ) (st : StatusLp)
    (x : Fin ents.length → Fin peds.length → Bool)
    (T : Fin peds.length → ℚ) : Option ResultadoRestrito :=
  if st = StatusLp.otimo then
    some
      { valor_objetivo := objetivoPonderado peds T
        alocacoes := alocacoesRestritasDe ents peds x T
        tempo_total := ((List.finRange peds.length).map fun j => T j).sum
        restricoes_atendidas := true }
  else none

/-- Capacity-uniform feasibility used by the capacity sweep of
`analise_sensibilidade_capacidade`: every courier's capacity is overridden
to the single value c before `criar_modelo` is rebuilt, so the capacity
constraint reads `lpSum x[i,j] ≤ c` for each i. -/
def viavelCapacidadeUniforme (ents : List Entregador) (peds : List Pedido)
    (c : ℕ) (x : Fin ents.length → Fin peds.length → Bool) : Prop :=
  atribuicaoUnica ents.length peds.length x ∧
  ∀ i : Fin ents.length,
    ((List.finRange peds.length).map fun j => indicador (x i j)).sum ≤ c

/-- The priority-weighted objective value realized by an assignment, with
each time variable pinned by the R2 constraint to the assigned courier's
cost. -/
def objetivoDe (ents : List Entregador) (peds : List Pedido)
    (x : Fin ents.length → Fin peds.length → Bool) : ℚ :=
  ((List.finRange peds.length).map fun j =>
    (((List.finRange ents.length).map fun i =>
      if x i j then custoPar (ents.get i) (peds.get j) else 0).sum) *
      ((peds.get j).prioridade : ℚ)).sum

/-- An assignment optimal for the model with uniform capacity c: feasible,
and of minimal weighted objective among feasible assignments. -/
def otimoCapacidadeUniforme (ents : List Entregador) (peds : List Pedido)
    (c : ℕ) (x : Fin ents.length → Fin peds.length → Bool) : Prop :=
  viavelCapacidadeUniforme ents peds c x ∧
  ∀ y : Fin ents.length → Fin peds.length → Bool,
    viavelCapacidadeUniforme ents peds c y →
    objetivoDe ents peds x ≤ objetivoDe ents peds y

/-- The column write `entregadores['Capacidade Máxima'] = cap` performed
inside the sweep loop of `analise_sensibilidade_capacidade` (line 37):
every courier's capacity is set to the same value. -/
def definirCapacidadeTodos (ents : List Entregador) (c : ℕ) : List Entregador :=
  ents.map fun e => { e with capacidade := c }

/-- The restoring column write
`entregadores['Capacidade Máxima'] = capacidade_original` (line 51 and
line 318): position-aligned assignment of the saved per-courier values. -/
def restaurarCapacidades (ents : List Entregador) (orig : List ℕ) : List Entregador :=
  List.zipWith (fun e c => { e with capacidade := c }) ents orig

/-- Courier-state evolution of `analise_sensibilidade_capacidade`
(`advanced_features.py` lines 24-56): save the capacity column, override it
with each swept value in the inclusive range, and restore the saved column
afterward.  `criar_modelo` and `resolver_modelo` do not write courier
fields, so only the capacity writes appear. -/
def analise_sensibilidade_capacidade (ents : List Entregador) (lo hi : ℕ) :
    List Entregador :=
  let capacidade_original := ents.map (·.capacidade)
  let ents1 := (List.range' lo (hi + 1 - lo)).foldl definirCapacidadeTodos ents
  restaurarCapacidades ents1 capacidade_original

/-- The reduced-capacity column write of `comparar_cenarios` (line 307):
each courier's capacity becomes its own value floor-divided by 2 plus 1. -/
def reduzirCapacidades (ents : List Entregador) : List Entregador :=
  ents.map fun e => { e with capacidade := e.capacidade / 2 + 1 }

/-- Courier-state evolution of the reduced-capacity scenario of
`comparar_cenarios` (`advanced_features.py` lines 304-318): save the
capacity column, halve-plus-one each capacity, solve, restore. -/
def comparar_cenarios_entregadores (ents : List Entregador) : List Entregador :=
  let cap_original := ents.map (·.capacidade)
  restaurarCapacidades (reduzirCapacidades ents) cap_original

/-- The i-th synthetic example order fabricated by `preprocessar_dados`
when cleaning removed every order (`ifood_optimizer.py` lines 158-169). -/
def pedidoExemplo (i : ℕ) : Pedido :=
  { pedido_id := "EXEMPLO_" ++ toString (i + 1)
    nome_restaurante := "Restaurante Exemplo " ++ toString (i + 1)
    cep_cliente := 36000000 + i
    prioridade := i % 3 + 1
    valor_pedido := 25 + i * 5
    tempo_preparo_min := 15 + i * 2
    tempo_deslocamento_min := 10 + i * 3
    distancia_km := 2 + (i : ℚ) / 2 }

/-- Embedding of the tail of `preprocessar_dados`
(`ifood_optimizer.py` lines 152-191), starting after the dropna cleaning
(which acts on NaN fields the cleaned record type cannot carry): if the
cleaned order set is empty, fabricate the 5 example orders; then fail when
either set is still empty, otherwise succeed.  Returns the success flag and
the installed order set. -/
def preprocessar_dados (ents : List Entregador) (peds : List Pedido) :
    Bool × List Pedido :=
  let peds1 := if peds.length = 0 then (List.range 5).map pedidoExemplo else peds
  if peds1.length = 0 then (false, peds1)
  else if ents.length = 0 then (false, peds1)
  else (true, peds1)

/-- Sample courier used for concrete witnesses: speed 30 km/h,
capacity 2. -/
def entExemplo : Entregador :=
  { id := 1, velocidade := 30, custoOperacional := 20, capacidade := 2 }

/-- Sample order used for concrete witnesses: Express priority, 2 km
restaurant leg, 10 min preparation, 5 min customer leg, so the realized
cost with `entExemplo` is (2/30)*60 + 10 + 5 = 19 minutes. -/
def pedExemplo : Pedido :=
  { pedido_id := "P1", nome_restaurante := "R1", cep_cliente := 36000000
    prioridade := 3, valor_pedido := 50, tempo_preparo_min := 10
    tempo_deslocamento_min := 5, distancia_km := 2 }

/-- Zero-speed courier exhibiting the missing validity guard: a speed of
0.0 survives the dropna cleaning (it is numeric and non-null). -/
def entVelocidadeZero : Entregador :=
  { id := 2, velocidade := 0, custoOperacional := 20, capacidade := 2 }

/-- The constant assignment over a 1-courier 1-order instance. -/
def xExemplo : Fin 1 → Fin 1 → Bool := fun _ _ => true

/-- The time values matching `xExemplo` on `[entExemplo]`, `[pedExemplo]`. -/
def tExemplo : Fin 1 → ℚ := fun _ => 19

/-- Courier with capacity 0, used to witness capacity-shortfall
infeasibility. -/
def entCapacidadeZero : Entregador :=
  { id := 3, velocidade := 30, custoOperacional := 20, capacidade := 0 }

instance decAtribuicaoUnica (M N : ℕ) (x : Fin M → Fin N → Bool) :
    Decidable (atribuicaoUnica M N x) :=
  inferInstanceAs (Decidable (∀ j : Fin N,
    ((List.finRange M).map fun i => indicador (x i j)).sum = 1))

instance decCapacidadeRespeitada (ents : List Entregador) (N : ℕ)
    (x : Fin ents.length → Fin N → Bool) :
    Decidable (capacidadeRespeitada ents N x) :=
  inferInstanceAs (Decidable (∀ i : Fin ents.length,
    ((List.finRange N).map fun j => indicador (x i j)).sum ≤ (ents.get i).capacidade))

theorem listSum_finRange {M : Type} [AddCommMonoid M] {n : ℕ} (f : Fin n → M) :
    ((List.finRange n).map f).sum = ∑ i, f i :=
  (Fin.sum_univ_def f).symm

/-- The sample time value satisfies the R2 constraint on the sample
one-courier, one-order instance: (2/30)*60 + 10 + 5 = 19. -/
theorem tempoDefinido_exemplo : tempoDefinido [entExemplo] [pedExemplo] xExemplo tExemplo := by
  intro j
  simp only [tempoDefinido, List.length_cons, List.length_nil, List.finRange_succ,
    List.finRange_zero, List.map_nil, List.map_cons, List.sum_cons, List.sum_nil,
    xExemplo, tExemplo, custoPar, calcular_tempo_deslocamento, if_pos]
  norm_num [entExemplo, pedExemplo]

theorem listSum_map_get {α M : Type} [AddCommMonoid M] (l : List α) (f : α → M) :
    (l.map f).sum = ∑ i : Fin l.length, f (l.get i) := by
  conv_lhs => rw [← List.finRange_map_get l]
  rw [List.map_map]
  exact listSum_finRange _

theorem countP_eq_sum_indicador {α : Type} (l : List α) (p : α → Bool) :
    l.countP p = (l.map fun a => indicador (p a)).sum := by
  induction l with
  | nil => rfl
  | cons a l ih => cases h : p a <;>
      simp [List.countP_cons, h, ih, indicador, Nat.add_comm]

/-- Under the unique-assignment constraint, two couriers assigned to the
same order coincide. -/
theorem atribuicao_unica_determina {M N : ℕ} {x : Fin M → Fin N → Bool}
    (hu : atribuicaoUnica M N x) {i i' : Fin M} {j : Fin N}
    (hi : x i j = true) (hi' : x i' j = true) : i' = i := by
  by_contra hne
  have h := hu j
  rw [listSum_finRange] at h
  have hpair : ({i, i'} : Finset (Fin M)).sum (fun k => indicador (x k j)) = 2 := by
    rw [Finset.sum_pair (fun hii => hne (hii.symm))]
    simp [indicador, hi, hi']
  have hle : ({i, i'} : Finset (Fin M)).sum (fun k => indicador (x k j)) ≤
      ∑ k, indicador (x k j) :=
    Finset.sum_le_sum_of_subset (Finset.subset_univ _)
  omega

/-- C1: for every courier i and order j, the cost coefficient of the pair
(i,j) in the model's time-definition constraint R2 equals the estimated
courier-to-restaurant distance (the order's `distancia_km`) divided by the
courier's speed, times 60, plus the order's preparation duration, plus its
customer-leg duration; consequently, whenever the constraint holds and
order j is (uniquely) assigned to courier i, the time variable of order j
equals exactly that expression. -/
theorem tempo_constraint_usa_custo (ents : List Entregador) (peds : List Pedido)
    (x : Fin ents.length → Fin peds.length → Bool) (T : Fin peds.length → ℚ)
    (i : Fin ents.length) (j : Fin peds.length)
    (hT : tempoDefinido ents peds x T)
    (hu : atribuicaoUnica ents.length peds.length x)
    (hx : x i j = true) :
    custoPar (ents.get i) (peds.get j) =
      ((peds.get j).distancia_km / (ents.get i).velocidade) * 60 +
        (peds.get j).tempo_preparo_min + (peds.get j).tempo_deslocamento_min ∧
    T j = ((peds.get j).distancia_km / (ents.get i).velocidade) * 60 +
        (peds.get j).tempo_preparo_min + (peds.get j).tempo_deslocamento_min := by
  refine ⟨rfl, ?_⟩
  have h := hT j
  rw [listSum_finRange] at h
  rw [h, Fintype.sum_eq_single i ?_]
  · rw [if_pos hx]
    rfl
  · intro b hb
    cases hxb : x b j with
    | false => simp [hxb]
    | true => exact absurd (atribuicao_unica_determina hu hx hxb) hb

/-- Witness for C1 at the one-courier, one-order sample instance. -/
theorem tempo_constraint_usa_custo_witness :
    tExemplo ⟨0, Nat.one_pos⟩ =
      ((pedExemplo.distancia_km / entExemplo.velocidade) * 60 +
        pedExemplo.tempo_preparo_min + pedExemplo.tempo_deslocamento_min) :=
  (tempo_constraint_usa_custo [entExemplo] [pedExemplo] xExemplo tExemplo
    ⟨0, Nat.one_pos⟩ ⟨0, Nat.one_pos⟩ tempoDefinido_exemplo (by decide) rfl).2

/-- C2: if the total courier capacity is strictly below the number of
orders, no 0/1 assignment satisfies both the unique-assignment and the
capacity constraints of the model built by `criar_modelo`, and a solve
reported Infeasible returns failure with no partial Solution installed. -/
theorem capacidade_insuficiente_inviavel (ents : List Entregador) (peds : List Pedido)
    (h : (ents.map (·.capacidade)).sum < peds.length) :
    (¬ ∃ x : Fin ents.length → Fin peds.length → Bool,
        atribuicaoUnica ents.length peds.length x ∧
        capacidadeRespeitada ents peds.length x) ∧
    ∀ x T, resolver_modelo ents peds StatusLp.inviavel x T = (false, none) := by
  refine ⟨?_, fun x T => rfl⟩
  rintro ⟨x, hu, hc⟩
  have h1 : ∀ j, ∑ i, indicador (x i j) = 1 := fun j => by
    have hj := hu j
    rwa [listSum_finRange] at hj
  have h2 : ∀ i, ∑ j, indicador (x i j) ≤ (ents.get i).capacidade := fun i => by
    have hi := hc i
    rwa [listSum_finRange] at hi
  have hcount : peds.length ≤ (ents.map (·.capacidade)).sum := by
    calc peds.length = ∑ _j : Fin peds.length, 1 := by
          simp
      _ = ∑ j, ∑ i, indicador (x i j) :=
          Finset.sum_congr rfl (fun j _ => (h1 j).symm)
      _ = ∑ i, ∑ j, indicador (x i j) := Finset.sum_comm
      _ ≤ ∑ i : Fin ents.length, (ents.get i).capacidade :=
          Finset.sum_le_sum (fun i _ => h2 i)
      _ = (ents.map (·.capacidade)).sum := (listSum_map_get _ _).symm
  omega

/-- Witness for C2: one courier of capacity 0 against one order. -/
theorem capacidade_insuficiente_inviavel_witness :
    (¬ ∃ x : Fin 1 → Fin 1 → Bool,
        atribuicaoUnica 1 1 x ∧ capacidadeRespeitada [entCapacidadeZero] 1 x) ∧
    ∀ x T, resolver_modelo [entCapacidadeZero] [pedExemplo] StatusLp.inviavel x T =
      (false, none) :=
  capacidade_insuficiente_inviavel [entCapacidadeZero] [pedExemplo] (by decide)

/-- C3: the objective of the model actually solved, after `criar_modelo`
overwrites the initial unweighted objective, is the sum over orders of the
time variable times the priority ordinal; at the sample instance this
differs from the unweighted sum of times. -/
theorem objetivo_final_ponderado (ents : List Entregador) (peds : List Pedido)
    (T : Fin peds.length → ℚ) :
    (criar_modelo ents peds).objetivo T =
      ((List.finRange peds.length).map fun j =>
        T j * ((peds.get j).prioridade : ℚ)).sum ∧
    (criar_modelo [entExemplo] [pedExemplo]).objetivo tExemplo ≠
      ((List.finRange 1).map fun j => tExemplo j).sum := by
  refine ⟨rfl, ?_⟩
  have h1 : (criar_modelo [entExemplo] [pedExemplo]).objetivo tExemplo = 57 := by
    simp only [criar_modelo, objetivoPonderado, List.length_cons, List.length_nil,
      List.finRange_succ, List.finRange_zero, List.map_nil, List.map_cons,
      List.sum_cons, List.sum_nil, tExemplo]
    norm_num [pedExemplo]
  have h2 : ((List.finRange 1).map fun j => tExemplo j).sum = 19 := by
    simp [List.finRange_succ, tExemplo]
  rw [h1, h2]
  norm_num

theorem length_alocacoesDe (ents : List Entregador) (peds : List Pedido)
    (x : Fin ents.length → Fin peds.length → Bool) (T : Fin peds.length → ℚ)
    (hu : atribuicaoUnica ents.length peds.length x) :
    (alocacoesDe ents peds x T).length = peds.length := by
  have h1 : ∀ j, ∑ i, indicador (x i j) = 1 := fun j => by
    have hj := hu j
    rwa [listSum_finRange] at hj
  unfold alocacoesDe
  rw [List.length_flatMap, listSum_finRange]
  calc ∑ i, (((List.finRange peds.length).filter fun j => x i j).map
        (mkAlocacao ents peds T i)).length
      = ∑ i, ∑ j, indicador (x i j) := by
        refine Finset.sum_congr rfl fun i _ => ?_
        rw [List.length_map, ← List.countP_eq_length_filter,
          countP_eq_sum_indicador, listSum_finRange]
    _ = ∑ j, ∑ i, indicador (x i j) := Finset.sum_comm
    _ = ∑ _j : Fin peds.length, 1 :=
        Finset.sum_congr rfl fun j _ => h1 j
    _ = peds.length := by simp

theorem count_pedido_alocacoesDe (ents : List Entregador) (peds : List Pedido)
    (x : Fin ents.length → Fin peds.length → Bool) (T : Fin peds.length → ℚ)
    (hu : atribuicaoUnica ents.length peds.length x) (j : Fin peds.length) :
    ((alocacoesDe ents peds x T).countP fun a => a.pedido_idx == j.val) = 1 := by
  have h1 : ∑ i, indicador (x i j) = 1 := by
    have hj := hu j
    rwa [listSum_finRange] at hj
  unfold alocacoesDe
  rw [List.countP_flatMap, listSum_finRange]
  calc ∑ i, ((((List.finRange peds.length).filter fun j => x i j).map
        (mkAlocacao ents peds T i)).countP fun a => a.pedido_idx == j.val)
      = ∑ i, indicador (x i j) := by
        refine Finset.sum_congr rfl fun i _ => ?_
        rw [List.countP_map, List.countP_filter, countP_eq_sum_indicador,
          listSum_finRange]
        rw [Fintype.sum_eq_single j ?_]
        · simp [mkAlocacao, indicador]
        · intro b hb
          have hbv : b.val ≠ j.val := fun hv => hb (Fin.ext hv)
          simp [mkAlocacao, indicador, Function.comp, Nat.beq_eq_true_eq, hbv]
    _ = 1 := h1

/-- C4: on an Optimal solve over a feasible input (the assignment
satisfies the unique-assignment constraint), the Result Extractor produces
a Solution whose `num_pedidos_alocados` equals `num_pedidos_total`, and
every order index appears in exactly one entry of the allocation list. -/
theorem extracao_cobre_pedidos (ents : List Entregador) (peds : List Pedido)
    (x : Fin ents.length → Fin peds.length → Bool) (T : Fin peds.length → ℚ)
    (hne : peds.length ≠ 0)
    (hu : atribuicaoUnica ents.length peds.length x) :
    ∃ r : Resultado, extrair_resultado ents peds x T = some r ∧
      r.num_pedidos_alocados = r.num_pedidos_total ∧
      ∀ j : Fin peds.length,
        (r.alocacoes.countP fun a => a.pedido_idx == j.val) = 1 := by
  unfold extrair_resultado
  rw [if_neg hne]
  refine ⟨_, rfl, ?_, ?_⟩
  · exact length_alocacoesDe ents peds x T hu
  · exact count_pedido_alocacoesDe ents peds x T hu

/-- Witness for C4 at the one-courier, one-order sample instance. -/
theorem extracao_cobre_pedidos_witness :
    ∃ r : Resultado,
      extrair_resultado [entExemplo] [pedExemplo] xExemplo tExemplo = some r ∧
      r.num_pedidos_alocados = r.num_pedidos_total ∧
      ∀ j : Fin 1, (r.alocacoes.countP fun a => a.pedido_idx == j.val) = 1 :=
  extracao_cobre_pedidos [entExemplo] [pedExemplo] xExemplo tExemplo
    (by decide) (by decide)

/-- C5: in the deadline-constrained variant, whenever the solved variables
satisfy the variant's constraint set, every allocation entry of a returned
Optimal result respects its priority deadline (priority 3 bounded by the
express deadline, priority 2 by the priority deadline); orders of priority
1 generate no deadline constraint at all; and on any non-Optimal status the
variant returns the distinct failure value `none` instead of raising. -/
theorem restricoes_tempo_variante (ents : List Entregador) (peds : List Pedido)
    (tmaxExpresso tmaxPrioritario : ℚ) (st : StatusLp)
    (x : Fin ents.length → Fin peds.length → Bool) (T : Fin peds.length → ℚ)
    (hv : modeloRestritoViavel ents peds tmaxExpresso tmaxPrioritario x T) :
    (∀ r, otimizacao_com_restricoes_tempo ents peds tmaxExpresso tmaxPrioritario
        st x T = some r →
      ∀ a ∈ r.alocacoes,
        (a.prioridade = 3 → a.tempo_entrega ≤ tmaxExpresso) ∧
        (a.prioridade = 2 → a.tempo_entrega ≤ tmaxPrioritario)) ∧
    ((∀ j : Fin peds.length, (peds.get j).prioridade = 1) →
      ∀ S : Fin peds.length → ℚ,
        restricoesTempoPrioridade peds tmaxExpresso tmaxPrioritario S) ∧
    (st ≠ StatusLp.otimo →
      otimizacao_com_restricoes_tempo ents peds tmaxExpresso tmaxPrioritario
        st x T = none) := by
  refine ⟨?_, ?_, ?_⟩
  · intro r hr a ha
    unfold otimizacao_com_restricoes_tempo at hr
    by_cases hst : st = StatusLp.otimo
    · rw [if_pos hst] at hr
      cases hr
      rw [alocacoesRestritasDe, List.mem_flatMap] at ha
      obtain ⟨i, _, hai⟩ := ha
      rw [List.mem_map] at hai
      obtain ⟨j, hjf, rfl⟩ := hai
      have hd := hv.2.2.2 j
      constructor
      · intro h3
        rw [if_pos h3] at hd
        exact hd
      · intro h2
        have h2F : (peds.get j).prioridade = 2 := h2
        by_cases h3 : (peds.get j).prioridade = 3
        · omega
        · rw [if_neg h3, if_pos h2F] at hd
          exact hd
    · rw [if_neg hst] at hr
      exact absurd hr (by simp)
  · intro hall S j
    have h : peds[j.val].prioridade = 1 := hall j
    simp [h]
  · intro hst
    unfold otimizacao_com_restricoes_tempo
    rw [if_neg hst]

/-- Witness for C5: the sample Express order realizes 19 minutes against a
30-minute express deadline. -/
theorem restricoes_tempo_variante_witness :
    (∀ r, otimizacao_com_restricoes_tempo [entExemplo] [pedExemplo] 30 45
        StatusLp.otimo xExemplo tExemplo = some r →
      ∀ a ∈ r.alocacoes,
        (a.prioridade = 3 → a.tempo_entrega ≤ 30) ∧
        (a.prioridade = 2 → a.tempo_entrega ≤ 45)) ∧
    ((∀ j : Fin 1, (([pedExemplo] : List Pedido).get j).prioridade = 1) →
      ∀ S : Fin 1 → ℚ, restricoesTempoPrioridade [pedExemplo] 30 45 S) ∧
    (StatusLp.otimo ≠ StatusLp.otimo →
      otimizacao_com_restricoes_tempo [entExemplo] [pedExemplo] 30 45
        StatusLp.otimo xExemplo tExemplo = none) :=
  restricoes_tempo_variante [entExemplo] [pedExemplo] 30 45 StatusLp.otimo
    xExemplo tExemplo
    ⟨by decide, by decide, tempoDefinido_exemplo, by
      intro j
      simp [pedExemplo, tExemplo]
      norm_num⟩

/-- C6: the time estimation actually used in model construction performs
the division by the courier's speed unconditionally: at speed 0 the cost
coefficient is still computed from the raw expression `(d / 0) * 60` with
no courier-validity error (the Python float computation yields infinity),
whereas the spec-modelled estimator rejects the courier; moreover the only
guarded path, the geocoded estimator used by the commented-out block,
checks speed equal to zero only, so at speed -10 it too performs the
division and returns a negative duration. -/
theorem velocidade_nao_positiva_sem_guarda :
    custoPar entVelocidadeZero pedExemplo =
      (pedExemplo.distancia_km / 0) * 60 + pedExemplo.tempo_preparo_min +
        pedExemplo.tempo_deslocamento_min ∧
    tempoDeslocamentoSpec entVelocidadeZero pedExemplo = none ∧
    calcular_tempo_entregador_restaurante (-10) true 5 = (5 / (-10)) * 60 := by
  refine ⟨rfl, ?_, ?_⟩
  · rw [tempoDeslocamentoSpec, if_pos (by norm_num [entVelocidadeZero])]
  · rw [calcular_tempo_entregador_restaurante]
    norm_num

/-- C7 counterexample: on the unknown/timed-out status the Solver Adapter
returns plain failure with no Solution, discarding the incumbent
assignment `xExemplo` it was handed, instead of reporting it as a
non-optimal candidate. -/
theorem resolver_indefinido_sem_candidato :
    resolver_modelo [entExemplo] [pedExemplo] StatusLp.indefinido xExemplo
      tExemplo = (false, none) := rfl

/-- C7 amended: a Solution is extracted only on Optimal status; on any
other status, including time-budget exhaustion without proof of
optimality, the adapter returns failure with no Solution and no best-found
candidate (it never treats the outcome as optimal, but reports nothing). -/
theorem resolver_extrai_apenas_otimo (ents : List Entregador) (peds : List Pedido)
    (st : StatusLp) (x : Fin ents.length → Fin peds.length → Bool)
    (T : Fin peds.length → ℚ) :
    ((resolver_modelo ents peds st x T).2 ≠ none → st = StatusLp.otimo) ∧
    (st ≠ StatusLp.otimo → resolver_modelo ents peds st x T = (false, none)) := by
  cases st <;> simp [resolver_modelo]

/-- Witness for C7 at the Infeasible status. -/
theorem resolver_extrai_apenas_otimo_witness :
    resolver_modelo [entExemplo] [pedExemplo] StatusLp.inviavel xExemplo
      tExemplo = (false, none) :=
  (resolver_extrai_apenas_otimo [entExemplo] [pedExemplo] StatusLp.inviavel
    xExemplo tExemplo).2 (by decide)

theorem restaurar_apos_mapa (ents : List Entregador) (g : Entregador → ℕ) :
    restaurarCapacidades (ents.map fun e => { e with capacidade := g e })
      (ents.map (·.capacidade)) = ents := by
  induction ents with
  | nil => rfl
  | cons e t ih =>
      simp only [restaurarCapacidades, List.map_cons, List.zipWith_cons_cons] at ih ⊢
      rw [ih]

theorem map_capacidade_propria (l : List Entregador) :
    (l.map fun e => { e with capacidade := e.capacidade }) = l := by
  induction l with
  | nil => rfl
  | cons e t ih => rw [List.map_cons, ih]

theorem foldl_definir_forma (ents : List Entregador) (caps : List ℕ)
    (g : Entregador → ℕ) :
    ∃ h : Entregador → ℕ,
      caps.foldl definirCapacidadeTodos
        (ents.map fun e => { e with capacidade := g e }) =
      ents.map fun e => { e with capacidade := h e } := by
  induction caps generalizing g with
  | nil => exact ⟨g, rfl⟩
  | cons c cs ih =>
      rw [List.foldl_cons]
      have hstep : definirCapacidadeTodos
          (ents.map fun e => { e with capacidade := g e }) c =
          ents.map fun e => { e with capacidade := c } := by
        rw [definirCapacidadeTodos, List.map_map]
        rfl
      rw [hstep]
      exact ih fun _ => c

theorem foldl_definir_forma_base (ents : List Entregador) (caps : List ℕ) :
    ∃ h : Entregador → ℕ,
      caps.foldl definirCapacidadeTodos ents =
      ents.map fun e => { e with capacidade := h e } := by
  have hform := foldl_definir_forma ents caps (·.capacidade)
  rwa [map_capacidade_propria] at hform

/-- C8: after the capacity-sweep analysis and after the reduced-capacity
scenario, every courier carries exactly its own pre-scenario capacity (the
restoration is per courier, from the saved column), and the capacity
overrides never touch any other courier field. -/
theorem cenarios_restauram_capacidades (ents : List Entregador) (lo hi : ℕ) :
    analise_sensibilidade_capacidade ents lo hi = ents ∧
    comparar_cenarios_entregadores ents = ents ∧
    ∀ c, ((definirCapacidadeTodos ents c).map
        fun e => (e.id, e.velocidade, e.custoOperacional)) =
      ents.map fun e => (e.id, e.velocidade, e.custoOperacional) := by
  refine ⟨?_, ?_, ?_⟩
  · show restaurarCapacidades
      ((List.range' lo (hi + 1 - lo)).foldl definirCapacidadeTodos ents)
      (ents.map (·.capacidade)) = ents
    obtain ⟨h, hh⟩ := foldl_definir_forma_base ents (List.range' lo (hi + 1 - lo))
    rw [hh]
    exact restaurar_apos_mapa ents h
  · show restaurarCapacidades (reduzirCapacidades ents)
      (ents.map (·.capacidade)) = ents
    exact restaurar_apos_mapa ents fun e => e.capacidade / 2 + 1
  · intro c
    rw [definirCapacidadeTodos, List.map_map]
    rfl

/-- Feasible assignments of the uniform-capacity model at the sample
instance are exactly the full assignment. -/
theorem viavel_exemplo_unico (c : ℕ)
    (y : Fin 1 → Fin 1 → Bool)
    (hy : viavelCapacidadeUniforme [entExemplo] [pedExemplo] c y) :
    y = xExemplo := by
  funext i j
  have h := hy.1 j
  rw [listSum_finRange] at h
  have h1 : ∑ i : Fin 1, indicador (y i j) = 1 := h
  rw [Fin.sum_univ_one] at h1
  have hi : i = 0 := Fin.ext (by have hlt := i.isLt; omega)
  rw [hi]
  cases hb : y 0 j with
  | true => rfl
  | false =>
      rw [hb] at h1
      simp [indicador] at h1

/-- The full assignment is optimal for the sample instance at every
uniform capacity at least 1. -/
theorem otimo_exemplo_uniforme (c : ℕ) (hc : 1 ≤ c) :
    otimoCapacidadeUniforme [entExemplo] [pedExemplo] c xExemplo := by
  constructor
  · constructor
    · decide
    · intro i
      simp only [List.length_cons, List.length_nil, List.finRange_succ,
        List.finRange_zero, List.map_nil, List.map_cons, List.sum_cons,
        List.sum_nil, xExemplo, indicador, if_pos]
      omega
  · intro y hy
    rw [viavel_exemplo_unico c y hy]

/-- C9: holding the courier and order sets fixed, if every courier's
capacity is overridden to a single value and the weighted model solved to
optimality, the optimal priority-weighted objective is non-increasing in
that capacity: optimal assignments for capacities c1 ≤ c2 (both feasible)
satisfy objective(c2) ≤ objective(c1). -/
theorem objetivo_monotono_capacidade (ents : List Entregador) (peds : List Pedido)
    (c1 c2 : ℕ) (x1 x2 : Fin ents.length → Fin peds.length → Bool)
    (hc : c1 ≤ c2)
    (h1 : otimoCapacidadeUniforme ents peds c1 x1)
    (h2 : otimoCapacidadeUniforme ents peds c2 x2) :
    objetivoDe ents peds x2 ≤ objetivoDe ents peds x1 :=
  h2.2 x1 ⟨h1.1.1, fun i => le_trans (h1.1.2 i) hc⟩

/-- Witness for C9 at capacities 1 ≤ 2 on the sample instance. -/
theorem objetivo_monotono_capacidade_witness :
    objetivoDe [entExemplo] [pedExemplo] xExemplo ≤
      objetivoDe [entExemplo] [pedExemplo] xExemplo :=
  objetivo_monotono_capacidade [entExemplo] [pedExemplo] 1 2 xExemplo xExemplo
    (by omega) (otimo_exemplo_uniforme 1 (by omega))
    (otimo_exemplo_uniforme 2 (by omega))

/-- C10: when cleaning leaves zero orders, `preprocessar_dados` fabricates
exactly 5 synthetic example orders with priorities cycling 1,2,3, installs
them as the order set, and returns success, so the pipeline proceeds on
fabricated data instead of reporting an input-validity error. -/
theorem preprocessa_fabrica_exemplos (ents : List Entregador) (hne : ents ≠ []) :
    preprocessar_dados ents [] = (true, (List.range 5).map pedidoExemplo) ∧
    ((List.range 5).map pedidoExemplo).length = 5 ∧
    ((List.range 5).map pedidoExemplo).map (·.prioridade) = [1, 2, 3, 1, 2] := by
  have hlen : ents.length ≠ 0 := fun h => hne (List.length_eq_zero.mp h)
  refine ⟨?_, by simp, by decide⟩
  simp [preprocessar_dados, hlen]

/-- Witness for C10 with a single sample courier. -/
theorem preprocessa_fabrica_exemplos_witness :
    preprocessar_dados [entExemplo] [] = (true, (List.range 5).map pedidoExemplo) ∧
    ((List.range 5).map pedidoExemplo).length = 5 ∧
    ((List.range 5).map pedidoExemplo).map (·.prioridade) = [1, 2, 3, 1, 2] :=
  preprocessa_fabrica_exemplos [entExemplo] (List.cons_ne_nil _ _)

end IFood
